import Mathlib

/-!
Verification of the Statistical Analysis and Forecasting Engine
(`sistema_ventas/services/data_analysis_service.py`).

The development shallowly embeds `DataAnalysisService` and the parts of the
configuration it reads (`EXPORT_FORMATS` in `sistema_ventas/config/__init__.py`).
Python floats are modelled as exact rationals (`ℚ`); the float value NaN, which
arises only from 0/0-style aggregates (mean/median/std of an empty or singleton
column), is modelled as `Option ℚ` with `none` for NaN.  Python exceptions are
modelled with `Except`: every service method that can raise returns
`Except SvcError _`.
-/

namespace SistemaVentas

/-- The service exception taxonomy of `sistema_ventas/core/exceptions`:
`DataValidationError`, `DataAnalysisError`, `DataProcessingError`,
`DataExportError`, each carrying its `error_code` string. -/
inductive SvcError where
  | validation (code : String)
  | analysis (code : String)
  | processing (code : String)
  | export (code : String)
deriving DecidableEq, Repr

/-- A datetime value together with its calendar-period projections.  The
pandas accessors `dt.date`, `dt.to_period('W')` and `dt.to_period('M')` are
modelled as the three fields; period keys are naturals ordered
chronologically, which is all the service ever uses of them. -/
structure TS where
  date : ℕ
  week : ℕ
  month : ℕ
deriving DecidableEq, Repr

/-- Code-point comparison of char lists: the lexicographic order Python uses
for `str` comparison, hence the order `groupby(sort=True)` sorts string group
keys with. -/
def chLe : List Char → List Char → Bool
  | [], _ => true
  | _ :: _, [] => false
  | a :: as, b :: bs =>
    if a.toNat < b.toNat then true
    else if b.toNat < a.toNat then false
    else chLe as bs

/-- Lexicographic (code-point) order on strings, as Python compares `str`. -/
def strLe (a b : String) : Bool := chLe a.data b.data

/-- Insertion step of a stable insertion sort parametrised by a Boolean
"goes-before-or-ties" test: `x` is placed in front of the first element `y`
with `le x y`. -/
def oInsert (le : α → α → Bool) (x : α) : List α → List α
  | [] => [x]
  | y :: ys => if le x y then x :: y :: ys else y :: oInsert le x ys

/-- Stable insertion sort: earlier list elements come out before later ones
that compare equal, which is exactly pandas' stable ordering of tied values. -/
def oSort (le : α → α → Bool) (l : List α) : List α := l.foldr (oInsert le) []

/-- Worker of `firstDedup`: keeps the elements not seen before, threading the
set of already-emitted values. -/
def firstDedupAux [DecidableEq α] (seen : List α) : List α → List α
  | [] => []
  | x :: xs =>
    if x ∈ seen then firstDedupAux seen xs
    else x :: firstDedupAux (x :: seen) xs

/-- Distinct values in first-occurrence order — the order of
`pandas.Series.unique` and of insertion into a Python dict. -/
def firstDedup [DecidableEq α] (l : List α) : List α := firstDedupAux [] l

/-- Arithmetic mean of a float column; `none` models the NaN that pandas
`mean()` yields on an empty column. -/
def listMean (l : List ℚ) : Option ℚ :=
  if l.isEmpty then none else some (l.sum / l.length)

/-- Median of a float column as pandas computes it: the middle element of the
sorted values, or the average of the two middle elements for even length;
`none` models NaN on an empty column. -/
def listMedian (l : List ℚ) : Option ℚ :=
  let s := oSort (fun a b => decide (a ≤ b)) l
  match s.length with
  | 0 => none
  | Nat.succ _ =>
    if s.length % 2 = 1 then s.get? (s.length / 2)
    else do
      let a ← s.get? (s.length / 2 - 1)
      let b ← s.get? (s.length / 2)
      pure ((a + b) / 2)

/-- Sample variance (pandas `std()**2`, `ddof=1`): `none` models the NaN
standard deviation of a column with fewer than two values.  The service's
`desv_std` is the (generally irrational) square root of this value, so the
anomaly detector below takes the standard deviation as an explicit parameter
constrained by this definition. -/
def sampleVar (l : List ℚ) : Option ℚ :=
  if l.length < 2 then none
  else
    let μ := l.sum / l.length
    some ((l.map (fun x => (x - μ) ^ 2)).sum / (l.length - 1 : ℕ))

/-- Count of distinct non-null values — pandas `Series.nunique()`. -/
def nunique [DecidableEq α] (l : List (Option α)) : ℕ :=
  (firstDedup (l.filterMap id)).length

/-- One row of the dataset the analytical methods receive (the shape the
cleaner produces): `nombre` and `categoria` are non-null strings,
`venta_total` is a float, `venta_timestamp` a datetime, and `cliente_id` —
which the cleaner never touches — may be null. -/
structure Row where
  nombre : String
  categoria : String
  venta_total : ℚ
  venta_timestamp : TS
  cliente_id : Option String
deriving DecidableEq, Repr

/-- Which of the recognised columns are present: every method of the service
checks membership in `datos.columns` before touching a column. -/
structure Schema where
  has_nombre : Bool
  has_categoria : Bool
  has_venta_total : Bool
  has_venta_timestamp : Bool
  has_cliente_id : Bool
deriving DecidableEq, Repr

/-- The pandas DataFrame handed to the analytical methods: a column-presence
schema plus the ordered rows.  Cells of absent columns are carried in `Row`
but never read. -/
structure Dataset where
  schema : Schema
  rows : List Row
deriving DecidableEq, Repr

/-- The `venta_total` column as a list of floats. -/
def amounts (d : Dataset) : List ℚ := d.rows.map (·.venta_total)

/-- Sum of `venta_total` over the rows of one `nombre` group —
`datos.groupby('nombre')['venta_total'].sum()` evaluated at one key. -/
def groupSumNombre (d : Dataset) (n : String) : ℚ :=
  ((d.rows.filter (fun r => r.nombre == n)).map (·.venta_total)).sum

/-- The distinct `nombre` keys in the order `groupby(sort=True)` yields them:
sorted ascending by Python string comparison. -/
def uniqueNombresSorted (d : Dataset) : List String :=
  oSort strLe (firstDedup (d.rows.map (·.nombre)))

/-- Comparison realising `Series.nlargest(10)` over the name-sorted grouped
series: `nlargest` orders by value descending and, with the default
`keep='first'`, resolves ties by position in the series — which, the series
being indexed by the sorted group keys, is ascending name order. -/
def topLe (a b : String × ℚ) : Bool :=
  decide (b.2 < a.2) || (decide (a.2 = b.2) && strLe a.1 b.1)

/-- Value-descending comparison that leaves ties in list order; used to state
the spec's reading of the tie-break (stable over insertion order). -/
def valLe (a b : String × ℚ) : Bool :=
  decide (b.2 < a.2) || decide (a.2 = b.2)

/-- The content of the top-products section:
`datos.groupby('nombre')['venta_total'].sum().nlargest(10)` rendered as an
ordered key/value list. -/
def topSection (d : Dataset) : List (String × ℚ) :=
  (oSort topLe ((uniqueNombresSorted d).map
    (fun n => (n, groupSumNombre d n)))).take 10

/-- Embedding of `_generar_top_productos` (data_analysis_service.py lines
121-125): when both columns are present the section is `topSection`;
otherwise the section is absent (`none`). -/
def top_productos (d : Dataset) : Option (List (String × ℚ)) :=
  if d.schema.has_nombre && d.schema.has_venta_total then some (topSection d)
  else none

/-- Modelled from the spec: the top-entities section with ties between equal
totals broken by first-encountered (insertion) order of the entity in the
dataset, as §4.3 of the specification words it. -/
def top_productos_spec (d : Dataset) : Option (List (String × ℚ)) :=
  if d.schema.has_nombre && d.schema.has_venta_total then
    some ((oSort valLe ((firstDedup (d.rows.map (·.nombre))).map
      (fun n => (n, groupSumNombre d n)))).take 10)
  else none

/-- The KPI dictionary of `calcular_metricas_kpi`.  An outer `none` models a
key the method did not insert (its guarding column is absent); for
`ticket_promedio` and `mediana_venta` the inner `Option` carries the possible
NaN of `mean()`/`median()` on an empty column. -/
structure KPISet where
  total_ventas : Option ℚ
  ticket_promedio : Option (Option ℚ)
  mediana_venta : Option (Option ℚ)
  total_transacciones : ℕ
  transacciones_exitosas : ℕ
  productos_unicos : Option ℕ
  clientes_unicos : Option ℕ
  transacciones_por_cliente : Option ℚ
  tasa_conversion : Option ℚ
deriving DecidableEq, Repr

/-- Distinct non-null customer ids — `datos['cliente_id'].nunique()`. -/
def nuniqueClientes (d : Dataset) : ℕ := nunique (d.rows.map (·.cliente_id))

/-- Embedding of `calcular_metricas_kpi` (lines 298-340).  The single
exception path of the body is the unguarded integer division
`len(datos) / datos['cliente_id'].nunique()` (line 328): when `cliente_id` is
present with zero distinct non-null values it raises `ZeroDivisionError`,
which the method's `except` wraps into a `DataAnalysisError` with code
`KPI_CALCULATION_ERROR`. -/
def calcular_metricas_kpi (d : Dataset) : Except SvcError KPISet :=
  if d.schema.has_cliente_id && (nuniqueClientes d == 0) then
    .error (.analysis "KPI_CALCULATION_ERROR")
  else
    .ok { total_ventas := if d.schema.has_venta_total then some (amounts d).sum else none
        , ticket_promedio := if d.schema.has_venta_total then some (listMean (amounts d)) else none
        , mediana_venta := if d.schema.has_venta_total then some (listMedian (amounts d)) else none
        , total_transacciones := d.rows.length
        , transacciones_exitosas :=
            if d.schema.has_venta_total then
              (d.rows.filter (fun r => decide (0 < r.venta_total))).length
            else 0
        , productos_unicos :=
            if d.schema.has_nombre then some ((firstDedup (d.rows.map (·.nombre))).length)
            else none
        , clientes_unicos :=
            if d.schema.has_cliente_id then some (nuniqueClientes d) else none
        , transacciones_por_cliente :=
            if d.schema.has_cliente_id then
              some ((d.rows.length : ℚ) / (nuniqueClientes d : ℚ))
            else none
        , tasa_conversion :=
            if d.schema.has_venta_total then
              some (if 0 < d.rows.length then
                ((d.rows.filter (fun r => decide (0 < r.venta_total))).length : ℚ)
                  / (d.rows.length : ℚ) * 100
              else 0)
            else none }

/-- The dictionary `analizar_tendencias` returns, with period keys as
naturals ordered chronologically. -/
structure TrendResult where
  periodo : String
  tendencia : String
  crecimiento_porcentual : ℚ
  valores_por_periodo : List (ℕ × ℚ)
  periodo_mejor : ℕ
  periodo_peor : ℕ
  promedio_periodo : ℚ
  total_periodos : ℕ
deriving DecidableEq, Repr

/-- The grouping key of `analizar_tendencias`: `dt.date` for「diario」,
`dt.to_period('W')` for「semanal」, `dt.to_period('M')` otherwise (the
source's `else` default). -/
def periodKey (periodo : String) (r : Row) : ℕ :=
  if periodo = "diario" then r.venta_timestamp.date
  else if periodo = "semanal" then r.venta_timestamp.week
  else r.venta_timestamp.month

/-- The series `datos.groupby(key)['venta_total'].sum()`: distinct keys
sorted ascending, each with the sum of `venta_total` over its rows. -/
def groupByPeriod (key : Row → ℕ) (rows : List Row) : List (ℕ × ℚ) :=
  (oSort (fun a b => decide (a ≤ b)) (firstDedup (rows.map key))).map
    (fun k => (k, ((rows.filter (fun r => key r == k)).map (·.venta_total)).sum))

/-- Pandas `Series.idxmax` on a key/value list: the entry of the first
occurrence of the maximal value, `none` on the empty series (where pandas
raises `ValueError`). -/
def argmaxFirst : List (ℕ × ℚ) → Option (ℕ × ℚ)
  | [] => none
  | x :: xs => some (xs.foldl (fun b y => if b.2 < y.2 then y else b) x)

/-- Pandas `Series.idxmin` on a key/value list, first occurrence kept. -/
def argminFirst : List (ℕ × ℚ) → Option (ℕ × ℚ)
  | [] => none
  | x :: xs => some (xs.foldl (fun b y => if y.2 < b.2 then y else b) x)

/-- Embedding of `analizar_tendencias` (lines 235-296).  Missing required
columns raise a `DataAnalysisError` inside the `try`, which the method's own
`except` re-wraps with code `TREND_ANALYSIS_ERROR`; and on an empty grouped
series the `agrupacion.idxmax()` call in the result dictionary raises a
`ValueError`, wrapped the same way. -/
def analizar_tendencias (d : Dataset) (periodo : String) : Except SvcError TrendResult :=
  if !(d.schema.has_venta_timestamp && d.schema.has_venta_total) then
    .error (.analysis "TREND_ANALYSIS_ERROR")
  else
    let g := groupByPeriod (periodKey periodo) d.rows
    let valores := g.map (·.2)
    let crecimiento : ℚ :=
      if valores.length < 2 then 0
      else
        match valores.head?, valores.getLast? with
        | some v0, some vl => if v0 ≠ 0 then (vl - v0) / v0 * 100 else 0
        | _, _ => 0
    let tendencia :=
      if valores.length < 2 then "estable"
      else if 5 < crecimiento then "creciente"
      else if crecimiento < -5 then "decreciente"
      else "estable"
    match argmaxFirst g, argminFirst g with
    | some mx, some mn =>
        .ok { periodo := periodo
            , tendencia := tendencia
            , crecimiento_porcentual := crecimiento
            , valores_por_periodo := g
            , periodo_mejor := mx.1
            , periodo_peor := mn.1
            , promedio_periodo := valores.sum / valores.length
            , total_periodos := g.length }
    | _, _ => .error (.analysis "TREND_ANALYSIS_ERROR")

/-- One entry of the list `identificar_anomalias` builds.  `producto` is
`row.get('nombre', 'N/A')`; `fecha` is `row.get('venta_timestamp', 'N/A')`
with `none` standing for the `'N/A'` default. -/
structure Anomalia where
  tipo : String
  valor : ℚ
  limite : ℚ
  desviacion : ℚ
  producto : String
  fecha : Option TS
deriving DecidableEq, Repr

/-- The float `media = datos['venta_total'].mean()` of the anomaly detector
on a non-empty column. -/
def mediaVentas (d : Dataset) : ℚ := (amounts d).sum / ((amounts d).length : ℚ)

/-- Builds one anomaly dictionary exactly as the two loop bodies of
`identificar_anomalias` do. -/
def mkAnomalia (s : Schema) (tipo : String) (lim media σ : ℚ) (r : Row) : Anomalia :=
  { tipo := tipo
  , valor := r.venta_total
  , limite := lim
  , desviacion := (r.venta_total - media) / σ
  , producto := if s.has_nombre then r.nombre else "N/A"
  , fecha := if s.has_venta_timestamp then some r.venta_timestamp else none }

/-- Embedding of `identificar_anomalias` (lines 342-402).  The sample
standard deviation `desv_std` is irrational in general, so it is taken as the
parameter `σ`; callers instantiate it with the value fixed by
`sampleVar (amounts d) = some (σ * σ)`, `0 ≤ σ`.  On an empty column the mean
is NaN and on a singleton column the `ddof=1` standard deviation is NaN; in
both cases every comparison against the NaN limits is false and the result is
the empty list, which the embedding returns directly. -/
def identificar_anomalias (d : Dataset) (umbral σ : ℚ) : List Anomalia :=
  if !d.schema.has_venta_total then []
  else
    match d.rows with
    | [] => []
    | [_] => []
    | _ :: _ :: _ =>
      let media := mediaVentas d
      let limSup := media + umbral * σ
      let limInf := media - umbral * σ
      let altas := (d.rows.filter (fun r => decide (limSup < r.venta_total))).map
        (mkAnomalia d.schema "venta_alta" limSup media σ)
      let bajas := (d.rows.filter (fun r => decide (r.venta_total < limInf))).filterMap
        (fun r =>
          if 0 < r.venta_total then
            some (mkAnomalia d.schema "venta_baja" limInf media σ r)
          else none)
      altas ++ bajas

/-- The dictionary `generar_predicciones` returns.  The short
"insufficient data" shape and the full regression shape are merged with
`Option` fields for the keys only one of them carries.  Because the residual
standard deviation `np.std(residuos)` is irrational in general, the field
`error_estandar_sq` stores its square (the residual population variance),
with inner `none` for the NaN of the degenerate all-equal case. -/
structure ForecastResult where
  predicciones : List ℚ
  confianza : ℚ
  metodo : String
  mensaje : Option String
  error_estandar_sq : Option (Option ℚ)
  tendencia : Option String
  periodos_historicos : Option ℕ
  periodos_predichos : Option ℕ
deriving DecidableEq, Repr

/-- The monthly totals `datos.groupby(dt.to_period('M'))['venta_total'].sum()`
in ascending month order — the `valores` array of the forecaster. -/
def monthlyTotals (d : Dataset) : List ℚ :=
  (groupByPeriod (fun r => r.venta_timestamp.month) d.rows).map (·.2)

/-- Embedding of `generar_predicciones` (lines 404-473).  In exact
arithmetic the slope `np.corrcoef(x, valores)[0, 1] * (np.std(valores) /
np.std(x))` is `cov(x, valores) / var(x) = Sxy / Sxx`.  When all monthly
totals are equal (`Syy = 0`), `np.corrcoef` yields NaN and the NaN propagates
through slope, intercept and predictions; Python's `max(0, nan)` keeps its
first argument `0` (the comparison `nan > 0` is false) and `min(100, nan)`
keeps `100`, so that branch returns zero predictions with confidence `100` —
the embedding spells this case out. -/
def generar_predicciones (d : Dataset) (periodos_futuros : ℕ) : Except SvcError ForecastResult :=
  if !(d.schema.has_venta_timestamp && d.schema.has_venta_total) then
    .error (.analysis "PREDICTION_ERROR")
  else
    let valores := monthlyTotals d
    let n := valores.length
    if n < 3 then
      .ok { predicciones := []
          , confianza := 0
          , metodo := "insuficientes_datos"
          , mensaje := some "Se necesitan al menos 3 períodos históricos para generar predicciones"
          , error_estandar_sq := none
          , tendencia := none
          , periodos_historicos := none
          , periodos_predichos := none }
    else
      let ybar := valores.sum / (n : ℚ)
      let Syy := (valores.map (fun y => (y - ybar) ^ 2)).sum
      if Syy = 0 then
        .ok { predicciones := List.replicate periodos_futuros 0
            , confianza := 100
            , metodo := "regresion_lineal_simple"
            , mensaje := none
            , error_estandar_sq := some none
            , tendencia := some "estable"
            , periodos_historicos := some n
            , periodos_predichos := some periodos_futuros }
      else
        let xbar : ℚ := ((n : ℚ) - 1) / 2
        let Sxx := ((List.range n).map (fun (i : ℕ) => ((i : ℚ) - xbar) ^ 2)).sum
        let Sxy := ((List.range n).map
          (fun (i : ℕ) => ((i : ℚ) - xbar) * (valores.getD i 0 - ybar))).sum
        let pendiente := Sxy / Sxx
        let intercepto := ybar - pendiente * xbar
        let predicciones := (List.range periodos_futuros).map
          (fun (i : ℕ) => max 0 (intercepto + pendiente * ((n : ℚ) + (i : ℚ))))
        let residuos := (List.range n).map
          (fun (i : ℕ) => valores.getD i 0 - (intercepto + pendiente * (i : ℚ)))
        let ssRes := (residuos.map (fun r => r ^ 2)).sum
        let r2 := 1 - ssRes / Syy
        .ok { predicciones := predicciones
            , confianza := max 0 (min 100 (r2 * 100))
            , metodo := "regresion_lineal_simple"
            , mensaje := none
            , error_estandar_sq := some (some (ssRes / (n : ℚ)))
            , tendencia := some (if 0 < pendiente then "creciente"
                else if pendiente < 0 then "decreciente" else "estable")
            , periodos_historicos := some n
            , periodos_predichos := some periodos_futuros }

/-- The export formats the configuration accepts
(`sistema_ventas/config/__init__.py` line 237). -/
def EXPORT_FORMATS : List String := ["json", "csv", "excel", "pdf"]

/-- Embedding of `exportar_resultados` (lines 572-626).  A format outside
`EXPORT_FORMATS` raises `DataExportError` inside the `try`, re-wrapped by the
method's own `except` with code `EXPORT_ERROR`.  Otherwise the method picks
the output path (the supplied one, or a generated
`analisis_resultados_<timestamp>.<formato>` name — `datetime.now()` is passed
in as `now`) and runs the branch for its format: `json` always writes,
`csv`/`excel` write only when `self.df_actual` is set, and any other accepted
format (`pdf`) matches no branch, so nothing is written; the method then
returns the path.  The Boolean of the result records whether a file was
written; the serialized payload itself never affects control flow and is not
modelled. -/
def exportar_resultados (formato : String) (ruta : Option String)
    (df_actual : Option Dataset) (now : String) : Except SvcError (String × Bool) :=
  if formato ∉ EXPORT_FORMATS then
    .error (.export "EXPORT_ERROR")
  else
    let r := ruta.getD ("analisis_resultados_" ++ now ++ "." ++ formato)
    let wrote :=
      if formato = "json" then true
      else if formato = "csv" then df_actual.isSome
      else if formato = "excel" then df_actual.isSome
      else false
    .ok (r, wrote)

/-- A raw cell of a text-like or numeric column before cleaning: null (NaN),
a numeric value, a string `pd.to_numeric(errors='coerce')` parses as the
number `q`, or a string it cannot parse. -/
inductive Cell where
  | null
  | num (q : ℚ)
  | numText (q : ℚ) (s : String)
  | text (s : String)
deriving DecidableEq, Repr

/-- A raw cell of the timestamp column: null (NaT), an actual datetime, a
value `pd.to_datetime(errors='coerce')` parses to the datetime `t`, or a
value it coerces to NaT. -/
inductive TCell where
  | null
  | valid (t : TS)
  | coercible (t : TS)
  | invalid
deriving DecidableEq, Repr

/-- One row of the raw table handed to the validator and the cleaner.
`otros` stands for the cells of any further, unrecognised column. -/
structure RawRow where
  nombre : Cell
  categoria : Cell
  venta_total : Cell
  venta_timestamp : TCell
  cliente_id : Cell
  otros : Cell
deriving DecidableEq, Repr

/-- Column presence of the raw table. -/
structure RawSchema where
  has_nombre : Bool
  has_categoria : Bool
  has_venta_total : Bool
  has_venta_timestamp : Bool
  has_cliente_id : Bool
  has_otros : Bool
deriving DecidableEq, Repr

/-- The raw DataFrame: column presence plus ordered rows; cells of absent
columns are carried but never read. -/
structure RawDataset where
  schema : RawSchema
  rows : List RawRow
deriving DecidableEq, Repr

/-- Null test for a value cell (`pd.isnull`). -/
def isNullC : Cell → Bool
  | .null => true
  | _ => false

/-- Null test for a timestamp cell (`pd.isnull`, NaT). -/
def isNullT : TCell → Bool
  | .null => true
  | _ => false

/-- Whether every present cell of the row is null — the row predicate of
`dropna(how='all')`. -/
def rowAllNull (s : RawSchema) (r : RawRow) : Bool :=
  (!s.has_nombre || isNullC r.nombre) &&
  (!s.has_categoria || isNullC r.categoria) &&
  (!s.has_venta_total || isNullC r.venta_total) &&
  (!s.has_venta_timestamp || isNullT r.venta_timestamp) &&
  (!s.has_cliente_id || isNullC r.cliente_id) &&
  (!s.has_otros || isNullC r.otros)

/-- True when no recognised column is present at all. -/
def noColumns (s : RawSchema) : Bool :=
  !s.has_nombre && !s.has_categoria && !s.has_venta_total &&
  !s.has_venta_timestamp && !s.has_cliente_id && !s.has_otros

/-- Pandas `df.empty`: true when either axis has length zero. -/
def rawEmpty (d : RawDataset) : Bool := d.rows.isEmpty || noColumns d.schema

/-- The check `pd.api.types.is_numeric_dtype`: a column holding any string is
object-dtyped, a column of numbers and NaN is numeric.  In this cell model a
numeric-looking raw string still makes the column object-dtyped, so `numText`
counts as non-numeric. -/
def numericDtype (cells : List Cell) : Bool :=
  cells.all (fun c => match c with | .null => true | .num _ => true | _ => false)

/-- The check `pd.api.types.is_datetime64_any_dtype`: the column must hold
datetime values with possible NaT; any unparsed cell makes it object-dtyped. -/
def datetimeDtype (cells : List TCell) : Bool :=
  cells.all (fun c => match c with | .null => true | .valid _ => true | _ => false)

/-- Stands for the `'{:.1f}'` rendering Python applies to the null
percentage inside the validation message; the decimal formatting itself is
not modelled. -/
def pctString (q : ℚ) : String := toString q

/-- The message `f"Demasiados valores nulos en '{col}': {pct:.1f}%"`. -/
def nullPctMsg (col : String) (pct : ℚ) : String :=
  "Demasiados valores nulos en '" ++ col ++ "': " ++ pctString pct ++ "%"

/-- Embedding of `validar_datos` (lines 475-522).  The body only appends to
the error list and returns `(is_valid, errors)`; no statement in it can
raise, so the `Except` result is always `.ok`.  In particular a `None`
dataset is handled by the very first check, which returns
`(False, ["DataFrame es None"])`. -/
def validar_datos (od : Option RawDataset) : Except SvcError (Bool × List String) :=
  .ok (match od with
  | none => (false, ["DataFrame es None"])
  | some d =>
    if rawEmpty d then (false, ["DataFrame está vacío"])
    else
      let e1 : List String :=
        if !(d.schema.has_nombre || d.schema.has_categoria || d.schema.has_venta_total) then
          ["Debe tener al menos una de estas columnas: nombre, categoria, venta_total"]
        else []
      let ventaCells := d.rows.map (·.venta_total)
      let e2 : List String :=
        if d.schema.has_venta_total then
          if !numericDtype ventaCells then
            ["Columna 'venta_total' debe ser numérica"]
          else if ventaCells.all isNullC then
            ["Columna 'venta_total' no puede estar completamente vacía"]
          else []
        else []
      let e3 : List String :=
        if d.schema.has_venta_timestamp then
          if !datetimeDtype (d.rows.map (·.venta_timestamp)) then
            ["Columna 'venta_timestamp' debe ser fecha/hora"]
          else []
        else []
      let nullPct := fun (cells : List Cell) =>
        ((cells.filter isNullC).length : ℚ) / (d.rows.length : ℚ) * 100
      let e4 : List String :=
        if d.schema.has_nombre && decide (80 < nullPct (d.rows.map (·.nombre))) then
          [nullPctMsg "nombre" (nullPct (d.rows.map (·.nombre)))]
        else []
      let e5 : List String :=
        if d.schema.has_categoria && decide (80 < nullPct (d.rows.map (·.categoria))) then
          [nullPctMsg "categoria" (nullPct (d.rows.map (·.categoria)))]
        else []
      let errores := e1 ++ e2 ++ e3 ++ e4 ++ e5
      (errores.isEmpty, errores))

/-- Step 2a of the cleaner: `pd.to_numeric(col, errors='coerce')` per cell. -/
def toNumericCell : Cell → Cell
  | .null => .null
  | .num q => .num q
  | .numText q _ => .num q
  | .text _ => .null

/-- Step 2b of the cleaner: `fillna(0)` per cell. -/
def fillna0 : Cell → Cell
  | .null => .num 0
  | c => c

/-- The full per-cell amount coercion of the cleaner. -/
def cleanVentaCell (c : Cell) : Cell := fillna0 (toNumericCell c)

/-- Step 2c of the cleaner: the row filter `df['venta_total'] >= 0`.  After
the coercion every cell is numeric; a comparison on any other cell shape
(unreachable there) is false, like every float comparison against NaN. -/
def ventaNonneg : Cell → Bool
  | .num q => decide (0 ≤ q)
  | _ => false

/-- The whitespace class Python's `str.strip()` removes (the ASCII part,
which is what the sales data contains). -/
def charWs (c : Char) : Bool :=
  c = ' ' || c = '\t' || c = '\n' || c = '\r'

/-- Python `str.strip()` on the character list: drop leading and trailing
whitespace. -/
def stripChars (l : List Char) : List Char :=
  ((l.dropWhile charWs).reverse.dropWhile charWs).reverse

/-- Python `str.strip()`. -/
def stripStr (s : String) : String := ⟨stripChars s.data⟩

/-- Stands for Python's `str()` rendering of a float; only its type matters
to the cleaner (the result is a string either way). -/
def ratToStr (q : ℚ) : String := toString q

/-- Step 3a of the cleaner: `astype(str)` per cell.  `str(float('nan'))` is
the string `"nan"`. -/
def astypeStr : Cell → Cell
  | .null => .text "nan"
  | .num q => .text (ratToStr q)
  | .numText _ s => .text s
  | .text s => .text s

/-- Step 3b of the cleaner: `.str.strip()` per cell. -/
def stripCell : Cell → Cell
  | .text s => .text (stripStr s)
  | c => c

/-- The values `replace(['', 'nan', 'None'], 'Sin especificar')` rewrites. -/
def sentinelStrings : List String := ["", "nan", "None"]

/-- Step 3c of the cleaner: the sentinel replacement. -/
def replaceCell : Cell → Cell
  | .text s => if s ∈ sentinelStrings then .text "Sin especificar" else .text s
  | c => c

/-- The full per-cell text normalisation of the cleaner. -/
def cleanTextCell (c : Cell) : Cell := replaceCell (stripCell (astypeStr c))

/-- Step 4a of the cleaner: `pd.to_datetime(col, errors='coerce')` per cell. -/
def toDatetimeCell : TCell → TCell
  | .null => .null
  | .valid t => .valid t
  | .coercible t => .valid t
  | .invalid => .null

/-- Step 4b of the cleaner: the row filter of
`dropna(subset=['venta_timestamp'])`. -/
def tsNotNull : TCell → Bool
  | .null => false
  | _ => true

/-- Step 1 of `limpiar_datos`: `df.dropna(how='all')`. -/
def cleanStage1 (s : RawSchema) (rows : List RawRow) : List RawRow :=
  rows.filter (fun r => !rowAllNull s r)

/-- Step 2 of `limpiar_datos`: coerce `venta_total` to numeric, default the
failures to `0`, drop negative amounts — only when the column is present. -/
def cleanStage2 (s : RawSchema) (rows : List RawRow) : List RawRow :=
  if s.has_venta_total then
    (rows.map (fun r => { r with venta_total := cleanVentaCell r.venta_total })).filter
      (fun r => ventaNonneg r.venta_total)
  else rows

/-- Step 3 of `limpiar_datos`: normalise `nombre` and `categoria` when
present. -/
def cleanStage3 (s : RawSchema) (rows : List RawRow) : List RawRow :=
  rows.map (fun r =>
    { r with
      nombre := if s.has_nombre then cleanTextCell r.nombre else r.nombre
      categoria := if s.has_categoria then cleanTextCell r.categoria else r.categoria })

/-- Step 4 of `limpiar_datos`: coerce `venta_timestamp` and drop rows whose
timestamp came out NaT — only when the column is present. -/
def cleanStage4 (s : RawSchema) (rows : List RawRow) : List RawRow :=
  if s.has_venta_timestamp then
    (rows.map (fun r => { r with venta_timestamp := toDatetimeCell r.venta_timestamp })).filter
      (fun r => tsNotNull r.venta_timestamp)
  else rows

/-- Embedding of `limpiar_datos` (lines 524-570), step for step: drop
all-null rows, coerce and default the amounts then drop negative ones,
normalise the text columns, coerce the timestamps then drop rows whose
timestamp is NaT.  Each column is touched only when present.  The body
cannot raise on this cell model (every pandas call in it is total), so the
`DataProcessingError` wrapper of the method is never exercised and the
embedding returns the cleaned dataset directly. -/
def limpiar_datos (d : RawDataset) : RawDataset :=
  ⟨d.schema, cleanStage4 d.schema (cleanStage3 d.schema
    (cleanStage2 d.schema (cleanStage1 d.schema d.rows)))⟩

/-- Boolean rendering of the soundness condition on one returned anomaly:
a `venta_alta` flag exceeds the upper bound `μ + k·σ` and a `venta_baja` flag
lies strictly below the lower bound `μ - k·σ` while being strictly positive. -/
def anomaliaSound (d : Dataset) (umbral σ : ℚ) (a : Anomalia) : Bool :=
  (if a.tipo = "venta_alta" then decide (mediaVentas d + umbral * σ < a.valor) else true) &&
  (if a.tipo = "venta_baja" then
      decide (a.valor < mediaVentas d - umbral * σ) && decide (0 < a.valor)
    else true)

/-- A one-row dataset whose only present column is `venta_total`. -/
def dSoloVentas : Dataset :=
  ⟨⟨false, false, true, false, false⟩, [⟨"x", "y", 5, ⟨0, 0, 0⟩, none⟩]⟩

/-- A one-row dataset whose only present column is `cliente_id`, with the
single customer id null: `nunique()` of the column is `0`. -/
def dClienteNulo : Dataset :=
  ⟨⟨false, false, false, false, true⟩, [⟨"x", "y", 0, ⟨0, 0, 0⟩, none⟩]⟩

/-- An empty dataset whose only present column is `venta_total`. -/
def dVacioVentas : Dataset := ⟨⟨false, false, true, false, false⟩, []⟩

/-- A one-row dataset without the `venta_total` column. -/
def dSinVenta : Dataset :=
  ⟨⟨true, false, false, false, false⟩, [⟨"pan", "alimentos", 12, ⟨1, 1, 1⟩, none⟩]⟩

/-- Two rows with equal totals, entity `"b"` encountered before `"a"`. -/
def dEmpates : Dataset :=
  ⟨⟨true, false, true, false, false⟩,
   [⟨"b", "", 5, ⟨0, 0, 0⟩, none⟩, ⟨"a", "", 5, ⟨0, 0, 0⟩, none⟩]⟩

/-- An empty dataset that does have the `venta_timestamp` and `venta_total`
columns: the grouped series has zero buckets. -/
def dVacioTendencia : Dataset := ⟨⟨false, false, true, true, false⟩, []⟩

/-- A single-row dataset with both trend columns: exactly one bucket. -/
def dUnPeriodo : Dataset :=
  ⟨⟨false, false, true, true, false⟩, [⟨"p", "c", 7, ⟨3, 2, 1⟩, none⟩]⟩

/-- Three rows in three distinct months with totals 100, 150, 200. -/
def dTresMeses : Dataset :=
  ⟨⟨false, false, true, true, false⟩,
   [⟨"a", "", 100, ⟨1, 1, 0⟩, none⟩,
    ⟨"b", "", 150, ⟨2, 2, 1⟩, none⟩,
    ⟨"c", "", 200, ⟨3, 3, 2⟩, none⟩]⟩

/-- Three rows with amounts 0, 2, 4: mean 2 and sample variance 4, so the
sample standard deviation is exactly 2. -/
def dAnomalias : Dataset :=
  ⟨⟨false, false, true, false, false⟩,
   [⟨"a", "", 0, ⟨0, 0, 0⟩, none⟩,
    ⟨"b", "", 2, ⟨0, 0, 0⟩, none⟩,
    ⟨"c", "", 4, ⟨0, 0, 0⟩, none⟩]⟩

/-- A text cell in the normal form the cleaner produces: a string fixed by
`strip()` and distinct from every replacement sentinel. -/
def isCleanTextCell (c : Cell) : Prop :=
  ∃ u, c = Cell.text u ∧ stripStr u = u ∧ u ∉ sentinelStrings

/-- The row invariant the cleaner establishes on every surviving row: a
numeric non-negative amount, normalised text cells, a valid (non-NaT)
timestamp — each under presence of its column — and not all-null. -/
def RowClean (s : RawSchema) (r : RawRow) : Prop :=
  (s.has_venta_total = true → ∃ q, r.venta_total = Cell.num q ∧ 0 ≤ q) ∧
  (s.has_nombre = true → isCleanTextCell r.nombre) ∧
  (s.has_categoria = true → isCleanTextCell r.categoria) ∧
  (s.has_venta_timestamp = true → ∃ t, r.venta_timestamp = TCell.valid t) ∧
  rowAllNull s r = false

theorem chLe_total (a b : List Char) : chLe a b = true ∨ chLe b a = true := by
  induction a generalizing b with
  | nil => left; rfl
  | cons x xs ih =>
    cases b with
    | nil => right; rfl
    | cons y ys =>
      by_cases hxy : x.toNat < y.toNat
      · left; simp [chLe, hxy]
      · by_cases hyx : y.toNat < x.toNat
        · right; simp [chLe, hyx]
        · rcases ih ys with h | h
          · left; simp [chLe, hxy, hyx, h]
          · right; simp [chLe, hxy, hyx, h]

theorem chLe_trans {a b c : List Char} (hab : chLe a b = true)
    (hbc : chLe b c = true) : chLe a c = true := by
  induction a generalizing b c with
  | nil => rfl
  | cons x xs ih =>
    cases b with
    | nil => simp [chLe] at hab
    | cons y ys =>
      cases c with
      | nil => simp [chLe] at hbc
      | cons z zs =>
        simp only [chLe] at hab hbc ⊢
        by_cases hxy : x.toNat < y.toNat
        · by_cases hyz : y.toNat < z.toNat
          · simp [Nat.lt_trans hxy hyz]
          · by_cases hzy : z.toNat < y.toNat
            · simp [chLe, hxy, hyz, hzy] at hbc
            · have : y.toNat = z.toNat := Nat.le_antisymm (Nat.le_of_not_lt hzy) (Nat.le_of_not_lt hyz)
              simp [this ▸ hxy]
        · by_cases hyx : y.toNat < x.toNat
          · simp [hxy, hyx] at hab
          · have hxey : x.toNat = y.toNat := Nat.le_antisymm (Nat.le_of_not_lt hyx) (Nat.le_of_not_lt hxy)
            simp only [hxy, if_neg, hyx, if_false] at hab
            by_cases hyz : y.toNat < z.toNat
            · simp [hxey ▸ hyz]
            · by_cases hzy : z.toNat < y.toNat
              · simp [hyz, hzy] at hbc
              · simp only [hyz, if_neg, hzy, if_false] at hbc
                simp [hxey ▸ hyz, hxey ▸ hzy, ih (by simpa using hab) (by simpa using hbc)]

theorem strLe_total (a b : String) : strLe a b = true ∨ strLe b a = true :=
  chLe_total a.data b.data

theorem strLe_trans {a b c : String} (hab : strLe a b = true)
    (hbc : strLe b c = true) : strLe a c = true :=
  chLe_trans hab hbc

theorem mem_oInsert {le : α → α → Bool} {x z : α} {l : List α} :
    z ∈ oInsert le x l ↔ z = x ∨ z ∈ l := by
  induction l with
  | nil => simp [oInsert]
  | cons y ys ih =>
    by_cases h : le x y
    · simp [oInsert, h]
    · simp [oInsert, h, ih]; tauto

theorem mem_oSort {le : α → α → Bool} {z : α} {l : List α} :
    z ∈ oSort le l ↔ z ∈ l := by
  induction l with
  | nil => simp [oSort]
  | cons y ys ih =>
    simp only [oSort, List.foldr] at ih ⊢
    rw [mem_oInsert]
    simp [ih]

theorem pairwise_oInsert {le : α → α → Bool}
    (htot : ∀ a b, le a b = true ∨ le b a = true)
    (htrans : ∀ {a b c}, le a b = true → le b c = true → le a c = true)
    {x : α} {l : List α} (hl : l.Pairwise (fun a b => le a b = true)) :
    (oInsert le x l).Pairwise (fun a b => le a b = true) := by
  induction l with
  | nil => simp [oInsert]
  | cons y ys ih =>
    rcases List.pairwise_cons.mp hl with ⟨hy, hys⟩
    by_cases h : le x y
    · simp only [oInsert, h, if_true]
      refine List.pairwise_cons.mpr ⟨?_, hl⟩
      intro z hz
      rcases List.mem_cons.mp hz with hz | hz
      · subst hz; exact h
      · exact htrans h (hy z hz)
    · simp only [oInsert, h, if_false]
      refine List.pairwise_cons.mpr ⟨?_, ih hys⟩
      intro z hz
      rcases mem_oInsert.mp hz with hz | hz
      · subst hz
        rcases htot y z with hyz | hzy
        · exact hyz
        · cases h hzy
      · exact hy z hz

theorem pairwise_oSort {le : α → α → Bool}
    (htot : ∀ a b, le a b = true ∨ le b a = true)
    (htrans : ∀ {a b c}, le a b = true → le b c = true → le a c = true)
    (l : List α) : (oSort le l).Pairwise (fun a b => le a b = true) := by
  induction l with
  | nil => simp [oSort]
  | cons y ys ih =>
    simpa [oSort] using pairwise_oInsert htot (fun {a b c} => htrans) (by simpa [oSort] using ih)

theorem length_oInsert {le : α → α → Bool} (x : α) (l : List α) :
    (oInsert le x l).length = l.length + 1 := by
  induction l with
  | nil => rfl
  | cons y ys ih =>
    by_cases h : le x y
    · simp [oInsert, h]
    · simp [oInsert, h, ih]

theorem length_oSort {le : α → α → Bool} (l : List α) :
    (oSort le l).length = l.length := by
  induction l with
  | nil => rfl
  | cons y ys ih =>
    simp only [oSort, List.foldr] at ih ⊢
    rw [length_oInsert, ih, List.length_cons]

theorem mem_of_mem_firstDedupAux [DecidableEq α] {x : α} :
    ∀ {seen l : List α}, x ∈ firstDedupAux seen l → x ∈ l := by
  intro seen l
  induction l generalizing seen with
  | nil => simp [firstDedupAux]
  | cons y ys ih =>
    intro hx
    by_cases h : y ∈ seen
    · simp only [firstDedupAux, h, if_true] at hx
      exact List.mem_cons_of_mem _ (ih hx)
    · simp only [firstDedupAux, h, if_false] at hx
      rcases List.mem_cons.mp hx with hx | hx
      · exact hx ▸ List.mem_cons_self _ _
      · exact List.mem_cons_of_mem _ (ih hx)

theorem mem_of_mem_firstDedup [DecidableEq α] {x : α} {l : List α}
    (h : x ∈ firstDedup l) : x ∈ l :=
  mem_of_mem_firstDedupAux h

theorem mapSelf {f : α → α} {l : List α} (h : ∀ a ∈ l, f a = a) :
    l.map f = l := by
  induction l with
  | nil => rfl
  | cons x xs ih =>
    simp only [List.map_cons, h x (List.mem_cons_self x xs),
      ih (fun a ha => h a (List.mem_cons_of_mem x ha))]

/-- C2: `validar_datos` applied to a null dataset reference does not raise —
contrary to the claim, the `datos is None` check is the first statement of
the body and returns `(False, ["DataFrame es None"])` like any other
reported validation failure. -/
theorem validar_datos_none_counterexample :
    (validar_datos none).isOk = true ∧
    validar_datos none = Except.ok (false, ["DataFrame es None"]) :=
  ⟨rfl, rfl⟩

/-- C2 (amended): `validar_datos` never raises at all — for every input,
including the null dataset reference, it returns the `(is_valid, errors)`
pair. -/
theorem validar_datos_never_raises (od : Option RawDataset) :
    (validar_datos od).isOk = true := rfl

/-- C10: on a dataset without the `venta_total` column,
`identificar_anomalias` silently returns the empty list for every threshold;
the missing amount column is not a hard precondition as it is for the trend
analyzer and the forecaster. -/
theorem identificar_anomalias_sin_columna (d : Dataset) (umbral σ : ℚ)
    (h : d.schema.has_venta_total = false) :
    identificar_anomalias d umbral σ = [] := by
  simp [identificar_anomalias, h]

theorem identificar_anomalias_sin_columna_witness :
    identificar_anomalias dSinVenta 2 0 = [] :=
  identificar_anomalias_sin_columna dSinVenta 2 0 rfl

/-- C5: on a dataset without the `cliente_id` column the claim fails — the
returned KPI mapping does not contain a `clientes_unicos` entry with value
`0`; the key is simply absent. -/
theorem calcular_metricas_kpi_cliente_ausente_counterexample :
    (calcular_metricas_kpi dSoloVentas).map KPISet.clientes_unicos = Except.ok none ∧
    (calcular_metricas_kpi dSoloVentas).map KPISet.clientes_unicos ≠ Except.ok (some 0) := by
  refine ⟨rfl, ?_⟩
  intro h
  rw [show (calcular_metricas_kpi dSoloVentas).map KPISet.clientes_unicos
      = Except.ok none from rfl] at h
  simp at h

/-- C5 (amended): when the `cliente_id` column is absent,
`calcular_metricas_kpi` returns normally and the unique-customer keys
(`clientes_unicos`, `transacciones_por_cliente`) are absent from the KPI
mapping rather than present with value `0`. -/
theorem calcular_metricas_kpi_cliente_ausente (d : Dataset)
    (h : d.schema.has_cliente_id = false) :
    (calcular_metricas_kpi d).isOk = true ∧
    (calcular_metricas_kpi d).map KPISet.clientes_unicos = Except.ok none ∧
    (calcular_metricas_kpi d).map KPISet.transacciones_por_cliente = Except.ok none := by
  simp [calcular_metricas_kpi, h, Except.map, Except.isOk, Except.toBool]

theorem calcular_metricas_kpi_cliente_ausente_witness :
    (calcular_metricas_kpi dSoloVentas).isOk = true ∧
    (calcular_metricas_kpi dSoloVentas).map KPISet.clientes_unicos = Except.ok none ∧
    (calcular_metricas_kpi dSoloVentas).map KPISet.transacciones_por_cliente = Except.ok none :=
  calcular_metricas_kpi_cliente_ausente dSoloVentas rfl

/-- C4: the transactions-per-customer ratio is not guarded — on a dataset
whose `cliente_id` column has zero distinct non-null values the integer
division `len(datos) / nunique()` raises `ZeroDivisionError`, surfaced as a
`DataAnalysisError`, instead of yielding `0.0`. -/
theorem calcular_metricas_kpi_divzero_counterexample :
    calcular_metricas_kpi dClienteNulo =
      Except.error (SvcError.analysis "KPI_CALCULATION_ERROR") := rfl

/-- C4 (amended): `calcular_metricas_kpi` raises exactly when `cliente_id`
is present with zero distinct values (the unguarded
transactions-per-customer division); in every other case it returns
normally, the conversion rate guards its division by zero with `0.0` on an
empty dataset, while the mean and the median of an empty amount column are
NaN rather than `0.0`. -/
theorem calcular_metricas_kpi_div_guard (d : Dataset) :
    ((calcular_metricas_kpi d).isOk = false ↔
      (d.schema.has_cliente_id = true ∧ nuniqueClientes d = 0)) ∧
    (d.rows = [] → d.schema.has_venta_total = true →
      ¬(d.schema.has_cliente_id = true ∧ nuniqueClientes d = 0) →
      (calcular_metricas_kpi d).map KPISet.tasa_conversion = Except.ok (some 0) ∧
      (calcular_metricas_kpi d).map KPISet.ticket_promedio = Except.ok (some none) ∧
      (calcular_metricas_kpi d).map KPISet.mediana_venta = Except.ok (some none)) := by
  rcases hb : (d.schema.has_cliente_id && (nuniqueClientes d == 0)) with _ | _
  · have hprop : ¬(d.schema.has_cliente_id = true ∧ nuniqueClientes d = 0) := by
      rintro ⟨h1, h2⟩
      rw [h1, h2] at hb
      simp at hb
    constructor
    · simp [calcular_metricas_kpi, hb, hprop, Except.isOk, Except.toBool]
    · intro hrows hv _
      refine ⟨?_, ?_, ?_⟩ <;>
        simp [calcular_metricas_kpi, hb, hv, hrows, Except.map, amounts,
          listMean, listMedian, oSort]
  · have hprop : d.schema.has_cliente_id = true ∧ nuniqueClientes d = 0 := by
      simpa using hb
    constructor
    · simp [calcular_metricas_kpi, hb, hprop, Except.isOk, Except.toBool]
    · intro _ _ hcon
      exact absurd hprop hcon

theorem calcular_metricas_kpi_div_guard_witness :
    (calcular_metricas_kpi dVacioVentas).map KPISet.tasa_conversion = Except.ok (some 0) ∧
    (calcular_metricas_kpi dVacioVentas).map KPISet.ticket_promedio = Except.ok (some none) ∧
    (calcular_metricas_kpi dVacioVentas).map KPISet.mediana_venta = Except.ok (some none) :=
  (calcular_metricas_kpi_div_guard dVacioVentas).2 rfl rfl (by simp [dVacioVentas])

theorem groupByPeriod_ne_nil (key : Row → ℕ) (r : Row) (rs : List Row) :
    groupByPeriod key (r :: rs) ≠ [] := by
  intro h
  have hl := congrArg List.length h
  simp only [groupByPeriod, List.length_map, length_oSort, firstDedup,
    List.map_cons, firstDedupAux, List.not_mem_nil, if_false,
    List.length_cons, List.length_nil] at hl
  exact Nat.succ_ne_zero _ hl

/-- C3: on a dataset that has both trend columns but yields zero period
buckets (an empty dataset), `analizar_tendencias` does not return the
`estable`/`0.0` result the claim promises: the `agrupacion.idxmax()` call on
the empty grouped series raises a `ValueError`, surfaced as a
`DataAnalysisError`. -/
theorem analizar_tendencias_vacio_counterexample :
    analizar_tendencias dVacioTendencia "mensual" =
      Except.error (SvcError.analysis "TREND_ANALYSIS_ERROR") := rfl

/-- C3 (amended): with both trend columns present and fewer than 2 period
buckets, `analizar_tendencias` returns trend `estable` with growth `0.0`
when there is exactly one bucket, but raises a `DataAnalysisError` when
there are zero buckets (empty dataset): the insufficient-history case is
error-free only for a non-empty dataset. -/
theorem analizar_tendencias_pocos_periodos (d : Dataset) (periodo : String)
    (h1 : d.schema.has_venta_timestamp = true) (h2 : d.schema.has_venta_total = true)
    (h3 : (groupByPeriod (periodKey periodo) d.rows).length < 2) :
    (d.rows = [] → analizar_tendencias d periodo =
      Except.error (SvcError.analysis "TREND_ANALYSIS_ERROR")) ∧
    (d.rows ≠ [] →
      (analizar_tendencias d periodo).map TrendResult.tendencia = Except.ok "estable" ∧
      (analizar_tendencias d periodo).map TrendResult.crecimiento_porcentual = Except.ok 0) := by
  constructor
  · intro hrows
    simp [analizar_tendencias, h1, h2, hrows, groupByPeriod, firstDedup,
      firstDedupAux, oSort, argmaxFirst]
  · intro hrows
    rcases hg : groupByPeriod (periodKey periodo) d.rows with _ | ⟨p, ps⟩
    · rcases hr : d.rows with _ | ⟨r, rs⟩
      · exact absurd hr hrows
      · rw [hr] at hg
        exact absurd hg (groupByPeriod_ne_nil _ r rs)
    · rw [hg] at h3
      have hps : ps = [] := by
        simp only [List.length_cons] at h3
        exact List.eq_nil_of_length_eq_zero (by omega)
      subst hps
      constructor <;>
        simp [analizar_tendencias, h1, h2, hg, argmaxFirst, argminFirst, Except.map]

theorem analizar_tendencias_pocos_periodos_witness :
    (analizar_tendencias dUnPeriodo "mensual").map TrendResult.tendencia = Except.ok "estable" ∧
    (analizar_tendencias dUnPeriodo "mensual").map TrendResult.crecimiento_porcentual = Except.ok 0 :=
  (analizar_tendencias_pocos_periodos dUnPeriodo "mensual" rfl rfl (by decide)).2 (by decide)

theorem topLe_iff {a b : String × ℚ} :
    topLe a b = true ↔ b.2 < a.2 ∨ (a.2 = b.2 ∧ strLe a.1 b.1 = true) := by
  simp [topLe]

theorem topLe_total (a b : String × ℚ) : topLe a b = true ∨ topLe b a = true := by
  rcases lt_trichotomy a.2 b.2 with h | h | h
  · right; rw [topLe_iff]; left; exact h
  · rcases strLe_total a.1 b.1 with hs | hs
    · left; rw [topLe_iff]; right; exact ⟨h, hs⟩
    · right; rw [topLe_iff]; right; exact ⟨h.symm, hs⟩
  · left; rw [topLe_iff]; left; exact h

theorem topLe_trans {a b c : String × ℚ} (hab : topLe a b = true)
    (hbc : topLe b c = true) : topLe a c = true := by
  rw [topLe_iff] at hab hbc ⊢
  rcases hab with hab | ⟨hab, sab⟩
  · rcases hbc with hbc | ⟨hbc, _⟩
    · exact Or.inl (lt_trans hbc hab)
    · exact Or.inl (hbc ▸ hab)
  · rcases hbc with hbc | ⟨hbc, sbc⟩
    · exact Or.inl (hab ▸ hbc)
    · exact Or.inr ⟨hab.trans hbc, strLe_trans sab sbc⟩

/-- C1: the tie-break of the top-products section is not first-encountered
(insertion) order.  On a dataset where entity `"b"` appears before `"a"` and
both have the same total, `groupby(sort=True)` orders the groups
alphabetically and `nlargest(10, keep='first')` keeps that order among ties,
so the code yields `a` before `b` while the claimed insertion-order
tie-break would yield `b` before `a`. -/
theorem top_productos_empates_counterexample :
    top_productos dEmpates = some [("a", 5), ("b", 5)] ∧
    top_productos_spec dEmpates = some [("b", 5), ("a", 5)] ∧
    top_productos dEmpates ≠ top_productos_spec dEmpates := by
  have ha : top_productos dEmpates = some [("a", 5), ("b", 5)] := by
    simp +decide [top_productos, topSection, dEmpates, uniqueNombresSorted,
      firstDedup, firstDedupAux, oSort, oInsert, topLe, valLe, strLe, chLe,
      groupSumNombre, List.filter]
  have hb : top_productos_spec dEmpates = some [("b", 5), ("a", 5)] := by
    simp +decide [top_productos_spec, dEmpates, firstDedup, firstDedupAux,
      oSort, oInsert, valLe, groupSumNombre, List.filter]
  refine ⟨ha, hb, ?_⟩
  rw [ha, hb]
  intro h
  simp at h

/-- C1 (amended): the top-entities section groups the rows by `nombre`, sums
`venta_total` per group, and lists at most 10 entries in descending order of
summed amount — with ties between equal totals broken by ascending
(alphabetical) entity-name order, the position order of the
`groupby(sort=True)` series, not by first-encountered order. -/
theorem top_productos_amended (d : Dataset)
    (h1 : d.schema.has_nombre = true) (h2 : d.schema.has_venta_total = true) :
    top_productos d = some (topSection d) ∧
    (topSection d).length ≤ 10 ∧
    (topSection d).Pairwise (fun a b => topLe a b = true) ∧
    (topSection d).all
      (fun p => decide (p.2 = groupSumNombre d p.1) &&
        decide (p.1 ∈ d.rows.map (fun r => r.nombre))) = true := by
  refine ⟨by simp [top_productos, h1, h2], ?_, ?_, ?_⟩
  · exact List.length_take_le _ _
  · exact (pairwise_oSort topLe_total (fun {a b c} => topLe_trans) _).sublist
      (List.take_sublist _ _) |>.imp (fun h => h)
  · rw [List.all_eq_true]
    intro p hp
    have hp1 : p ∈ oSort topLe ((uniqueNombresSorted d).map
        (fun n => (n, groupSumNombre d n))) := List.mem_of_mem_take hp
    have hp2 := mem_oSort.mp hp1
    rcases List.mem_map.mp hp2 with ⟨n, hn, rfl⟩
    have hn2 : n ∈ firstDedup (d.rows.map (fun r => r.nombre)) :=
      mem_oSort.mp hn
    have hn3 : n ∈ d.rows.map (fun r => r.nombre) := mem_of_mem_firstDedup hn2
    simp [hn3]

theorem top_productos_amended_witness :
    top_productos dEmpates = some (topSection dEmpates) ∧
    (topSection dEmpates).length ≤ 10 ∧
    (topSection dEmpates).Pairwise (fun a b => topLe a b = true) ∧
    (topSection dEmpates).all
      (fun p => decide (p.2 = groupSumNombre dEmpates p.1) &&
        decide (p.1 ∈ dEmpates.rows.map (fun r => r.nombre))) = true :=
  top_productos_amended dEmpates rfl rfl

theorem eq_of_sum_sq_eq_zero {μ : ℚ} :
    ∀ {l : List ℚ}, (l.map (fun x => (x - μ) ^ 2)).sum = 0 → ∀ x ∈ l, x = μ := by
  intro l
  induction l with
  | nil => intro _ x hx; cases hx
  | cons y ys ih =>
    intro h x hx
    simp only [List.map_cons, List.sum_cons] at h
    have hsnn : 0 ≤ (ys.map (fun x => (x - μ) ^ 2)).sum := by
      apply List.sum_nonneg
      intro a ha
      rcases List.mem_map.mp ha with ⟨z, _, rfl⟩
      exact sq_nonneg _
    have hynn : 0 ≤ (y - μ) ^ 2 := sq_nonneg _
    have hy0 : (y - μ) ^ 2 = 0 := by linarith
    have hs0 : (ys.map (fun x => (x - μ) ^ 2)).sum = 0 := by linarith
    rcases List.mem_cons.mp hx with rfl | hx
    · exact sub_eq_zero.mp (pow_eq_zero_iff (by norm_num) |>.mp hy0)
    · exact ih hs0 x hx

theorem sampleVar_zero_eq_media {d : Dataset}
    (h : sampleVar (amounts d) = some 0) :
    ∀ r ∈ d.rows, r.venta_total = mediaVentas d := by
  intro r hr
  by_cases hlen : (amounts d).length < 2
  · simp [sampleVar, hlen] at h
  · simp only [sampleVar, hlen, if_false, Option.some.injEq] at h
    have hpos : (0 : ℚ) < (((amounts d).length - 1 : ℕ) : ℚ) := by
      have h1 : 0 < (amounts d).length - 1 := by omega
      exact_mod_cast h1
    rcases div_eq_zero_iff.mp h with h0 | hb
    · have hmem : r.venta_total ∈ amounts d := by
        simpa [amounts] using List.mem_map_of_mem (fun r => r.venta_total) hr
      have := eq_of_sum_sq_eq_zero h0 r.venta_total hmem
      simpa [mediaVentas] using this
    · exact absurd hb (ne_of_gt hpos)

/-- C6: every flag `identificar_anomalias` returns is sound — a `venta_alta`
record exceeds `μ + k·σ` strictly, a `venta_baja` record lies strictly below
`μ - k·σ` and is strictly positive (amount 0 is never flagged low) — and a
zero standard deviation short-circuits to the empty list, no division by
zero being performed.  The standard deviation parameter is pinned to the
pandas `std()` by the hypothesis `sampleVar (amounts d) = some (σ * σ)` with
`0 ≤ σ`. -/
theorem identificar_anomalias_sound (d : Dataset) (umbral σ : ℚ)
    (hvar : sampleVar (amounts d) = some (σ * σ)) (hσ : 0 ≤ σ) :
    (identificar_anomalias d umbral σ).all (anomaliaSound d umbral σ) = true ∧
    (σ = 0 → identificar_anomalias d umbral σ = []) := by
  cases hvt : d.schema.has_venta_total with
  | false => simp [identificar_anomalias, hvt]
  | true =>
    rcases hrows : d.rows with _ | ⟨r1, rs1⟩
    · simp [identificar_anomalias, hvt, hrows]
    rcases hrs1 : rs1 with _ | ⟨r2, rs2⟩
    · simp [identificar_anomalias, hvt, hrows, hrs1]
    subst hrs1
    have hred : identificar_anomalias d umbral σ =
        ((r1 :: r2 :: rs2).filter
          (fun r => decide (mediaVentas d + umbral * σ < r.venta_total))).map
          (mkAnomalia d.schema "venta_alta" (mediaVentas d + umbral * σ) (mediaVentas d) σ) ++
        ((r1 :: r2 :: rs2).filter
          (fun r => decide (r.venta_total < mediaVentas d - umbral * σ))).filterMap
          (fun r => if 0 < r.venta_total then
              some (mkAnomalia d.schema "venta_baja" (mediaVentas d - umbral * σ)
                (mediaVentas d) σ r)
            else none) := by
      simp only [identificar_anomalias, hvt, Bool.not_true, hrows]
      rfl
    constructor
    · rw [hred, List.all_eq_true]
      intro a ha
      rcases List.mem_append.mp ha with ha | ha
      · rcases List.mem_map.mp ha with ⟨r, hrf, rfl⟩
        have hrlt : mediaVentas d + umbral * σ < r.venta_total := by
          simpa using List.of_mem_filter hrf
        simp [anomaliaSound, mkAnomalia, hrlt]
      · rcases List.mem_filterMap.mp ha with ⟨r, hrf, hfr⟩
        by_cases hpos : 0 < r.venta_total
        · rw [if_pos hpos] at hfr
          obtain rfl := Option.some.inj hfr
          have hrlt : r.venta_total < mediaVentas d - umbral * σ := by
            simpa using List.of_mem_filter hrf
          simp [anomaliaSound, mkAnomalia, hrlt, hpos]
        · rw [if_neg hpos] at hfr
          cases hfr
    · intro hσ0
      subst hσ0
      have hall : ∀ r ∈ d.rows, r.venta_total = mediaVentas d :=
        sampleVar_zero_eq_media (by simpa using hvar)
      have hf1 : (r1 :: r2 :: rs2).filter
          (fun r => decide (mediaVentas d + umbral * 0 < r.venta_total)) = [] := by
        rw [List.filter_eq_nil_iff]
        intro r hr
        have hrm : r.venta_total = mediaVentas d := hall r (by rw [hrows]; exact hr)
        simp [hrm]
      have hf2 : (r1 :: r2 :: rs2).filter
          (fun r => decide (r.venta_total < mediaVentas d - umbral * 0)) = [] := by
        rw [List.filter_eq_nil_iff]
        intro r hr
        have hrm : r.venta_total = mediaVentas d := hall r (by rw [hrows]; exact hr)
        simp [hrm]
      rw [hred, hf1, hf2]
      rfl

theorem identificar_anomalias_sound_witness :
    (identificar_anomalias dAnomalias 1 2).all (anomaliaSound dAnomalias 1 2) = true ∧
    ((2 : ℚ) = 0 → identificar_anomalias dAnomalias 1 2 = []) :=
  identificar_anomalias_sound dAnomalias 1 2
    (by norm_num [sampleVar, amounts, dAnomalias]) (by norm_num)

theorem all_nonneg_replicate (h : ℕ) :
    (List.replicate h (0 : ℚ)).all (fun p => decide (0 ≤ p)) = true := by
  rw [List.all_eq_true]
  intro p hp
  rcases List.eq_of_mem_replicate hp with rfl
  simp

theorem all_nonneg_clamped (n : ℕ) (f : ℕ → ℚ) :
    ((List.range n).map (fun i => max 0 (f i))).all (fun p => decide (0 ≤ p)) = true := by
  rw [List.all_eq_true]
  intro p hp
  rcases List.mem_map.mp hp with ⟨i, _, rfl⟩
  simp [le_max_left]

/-- C8: for every dataset with both forecast columns yielding at least 3
monthly buckets and every horizon, `generar_predicciones` returns normally
with confidence clamped into `[0, 100]` and every projected value clamped to
`≥ 0` — including the degenerate all-equal-totals case, where the NaN of
`np.corrcoef` propagates and Python's asymmetric `max(0, nan)`/`min(100,
nan)` leave projections `0` and confidence `100`. -/
theorem generar_predicciones_bounds (d : Dataset) (h : ℕ)
    (h1 : d.schema.has_venta_timestamp = true) (h2 : d.schema.has_venta_total = true)
    (h3 : 3 ≤ (monthlyTotals d).length) :
    (generar_predicciones d h).map
      (fun fr => decide (0 ≤ fr.confianza) && decide (fr.confianza ≤ 100) &&
        fr.predicciones.all (fun p => decide (0 ≤ p))) = Except.ok true := by
  have hnot : ¬ (monthlyTotals d).length < 3 := not_lt.mpr h3
  by_cases hs : ((monthlyTotals d).map
      (fun y => (y - (monthlyTotals d).sum / ((monthlyTotals d).length : ℚ)) ^ 2)).sum = 0
  · simp [generar_predicciones, h1, h2, hnot, hs, Except.map, all_nonneg_replicate]
  · simp [generar_predicciones, h1, h2, hnot, hs, Except.map, all_nonneg_clamped]

theorem generar_predicciones_bounds_witness :
    (generar_predicciones dTresMeses 3).map
      (fun fr => decide (0 ≤ fr.confianza) && decide (fr.confianza ≤ 100) &&
        fr.predicciones.all (fun p => decide (0 ≤ p))) = Except.ok true :=
  generar_predicciones_bounds dTresMeses 3 rfl rfl (by decide)

/-- C9: the format check of `exportar_resultados` is made against
`EXPORT_FORMATS = ['json', 'csv', 'excel', 'pdf']`, so the format `pdf` —
outside the set `{json, csv, excel}` the docstring and the specification
promise — passes the guard, matches no serialization branch, writes nothing
and returns the output path as a success, while a genuinely unknown format
such as `xml` does fail with the export error kind. -/
theorem exportar_resultados_pdf :
    exportar_resultados "pdf" (some "salida.pdf") none "20240101_000000" =
      Except.ok ("salida.pdf", false) ∧
    exportar_resultados "xml" (some "salida.xml") none "20240101_000000" =
      Except.error (SvcError.export "EXPORT_ERROR") := by
  constructor
  · simp [exportar_resultados, EXPORT_FORMATS]
  · simp [exportar_resultados, EXPORT_FORMATS]

theorem dropWhile_head?_false (p : Char → Bool) :
    ∀ (l : List Char) (x : Char), (l.dropWhile p).head? = some x → p x = false := by
  intro l
  induction l with
  | nil => intro x hx; cases hx
  | cons y ys ih =>
    intro x hx
    rw [List.dropWhile_cons] at hx
    by_cases hp : p y
    · rw [if_pos hp] at hx
      exact ih x hx
    · rw [if_neg hp] at hx
      obtain rfl := Option.some.inj hx
      simpa using hp

theorem dropWhile_eq_self_of_head (p : Char → Bool) (l : List Char)
    (h : ∀ x, l.head? = some x → p x = false) : l.dropWhile p = l := by
  cases l with
  | nil => rfl
  | cons y ys =>
    rw [List.dropWhile_cons, h y rfl]
    simp

theorem getLast?_dropWhile (p : Char → Bool) (l : List Char) :
    l.dropWhile p = [] ∨ (l.dropWhile p).getLast? = l.getLast? := by
  induction l with
  | nil => left; rfl
  | cons y ys ih =>
    rw [List.dropWhile_cons]
    by_cases hp : p y
    · rw [if_pos hp]
      cases hys : ys.dropWhile p with
      | nil => left; rfl
      | cons z zs =>
        right
        rcases ih with h | h
        · rw [hys] at h; cases h
        · rw [hys] at h
          rw [h]
          cases ys with
          | nil => exact absurd hys (by simp)
          | cons w ws => rw [List.getLast?_cons_cons]
    · rw [if_neg hp]
      right; rfl

theorem stripChars_eq_self {l : List Char}
    (h1 : ∀ x, l.head? = some x → charWs x = false)
    (h2 : ∀ x, l.getLast? = some x → charWs x = false) : stripChars l = l := by
  unfold stripChars
  rw [dropWhile_eq_self_of_head _ _ h1]
  rw [dropWhile_eq_self_of_head _ _
    (fun x hx => h2 x (by rw [List.head?_reverse] at hx; exact hx))]
  exact List.reverse_reverse l

theorem getLast?_stripChars (l : List Char) :
    ∀ x, (stripChars l).getLast? = some x → charWs x = false := by
  intro x hx
  unfold stripChars at hx
  rw [List.getLast?_reverse] at hx
  exact dropWhile_head?_false charWs _ x hx

theorem head?_stripChars (l : List Char) :
    ∀ x, (stripChars l).head? = some x → charWs x = false := by
  intro x hx
  unfold stripChars at hx
  rw [List.head?_reverse] at hx
  rcases getLast?_dropWhile charWs (l.dropWhile charWs).reverse with h | h
  · rw [h] at hx; cases hx
  · rw [h, List.getLast?_reverse] at hx
    exact dropWhile_head?_false charWs l x hx

theorem stripChars_idem (l : List Char) : stripChars (stripChars l) = stripChars l :=
  stripChars_eq_self (head?_stripChars l) (getLast?_stripChars l)

theorem stripStr_idem (s : String) : stripStr (stripStr s) = stripStr s := by
  unfold stripStr
  exact congrArg String.mk (stripChars_idem s.data)

theorem sinEspecificar_fixed : stripStr "Sin especificar" = "Sin especificar" := by decide

theorem sinEspecificar_not_sentinel : "Sin especificar" ∉ sentinelStrings := by decide

theorem replace_strip_clean (w : String) :
    isCleanTextCell (replaceCell (Cell.text (stripStr w))) := by
  by_cases hw : stripStr w ∈ sentinelStrings
  · simp only [replaceCell, if_pos hw]
    exact ⟨"Sin especificar", rfl, sinEspecificar_fixed, sinEspecificar_not_sentinel⟩
  · simp only [replaceCell, if_neg hw]
    exact ⟨stripStr w, rfl, stripStr_idem w, hw⟩

theorem cleanTextCell_clean (c : Cell) : isCleanTextCell (cleanTextCell c) := by
  cases c with
  | null => exact replace_strip_clean "nan"
  | num q => exact replace_strip_clean (ratToStr q)
  | numText q s => exact replace_strip_clean s
  | text s => exact replace_strip_clean s

theorem cleanTextCell_fix {c : Cell} (h : isCleanTextCell c) : cleanTextCell c = c := by
  obtain ⟨u, rfl, hu1, hu2⟩ := h
  show replaceCell (stripCell (astypeStr (Cell.text u))) = Cell.text u
  rw [show astypeStr (Cell.text u) = Cell.text u from rfl]
  rw [show stripCell (Cell.text u) = Cell.text (stripStr u) from rfl, hu1]
  simp only [replaceCell, if_neg hu2]

theorem updVenta_eta (r : RawRow) : ({ r with venta_total := r.venta_total }) = r := by
  cases r
  rfl

theorem updText_eta (r : RawRow) :
    ({ r with nombre := r.nombre, categoria := r.categoria }) = r := by
  cases r
  rfl

theorem updTs_eta (r : RawRow) :
    ({ r with venta_timestamp := r.venta_timestamp }) = r := by
  cases r
  rfl

theorem cleanStage1_fix {s : RawSchema} {rows : List RawRow}
    (h : ∀ r ∈ rows, rowAllNull s r = false) : cleanStage1 s rows = rows := by
  unfold cleanStage1
  rw [List.filter_eq_self]
  intro r hr
  simp [h r hr]

theorem cleanStage2_fix {s : RawSchema} {rows : List RawRow}
    (h : ∀ r ∈ rows, s.has_venta_total = true → ∃ q, r.venta_total = Cell.num q ∧ 0 ≤ q) :
    cleanStage2 s rows = rows := by
  unfold cleanStage2
  by_cases hvt : s.has_venta_total = true
  · have hmap : rows.map (fun r => { r with venta_total := cleanVentaCell r.venta_total }) = rows := by
      apply mapSelf
      intro r hr
      obtain ⟨q, hq, _⟩ := h r hr hvt
      have hc : cleanVentaCell r.venta_total = r.venta_total := by rw [hq]; rfl
      rw [hc, updVenta_eta]
    rw [if_pos hvt, hmap, List.filter_eq_self]
    intro r hr
    obtain ⟨q, hq, hq0⟩ := h r hr hvt
    simp [ventaNonneg, hq, hq0]
  · rw [if_neg hvt]

theorem cleanStage3_fix {s : RawSchema} {rows : List RawRow}
    (h : ∀ r ∈ rows, (s.has_nombre = true → isCleanTextCell r.nombre) ∧
      (s.has_categoria = true → isCleanTextCell r.categoria)) :
    cleanStage3 s rows = rows := by
  unfold cleanStage3
  apply mapSelf
  intro r hr
  have hn : (if s.has_nombre then cleanTextCell r.nombre else r.nombre) = r.nombre := by
    by_cases hb : s.has_nombre = true
    · rw [if_pos hb, cleanTextCell_fix ((h r hr).1 hb)]
    · rw [if_neg hb]
  have hc : (if s.has_categoria then cleanTextCell r.categoria else r.categoria) = r.categoria := by
    by_cases hb : s.has_categoria = true
    · rw [if_pos hb, cleanTextCell_fix ((h r hr).2 hb)]
    · rw [if_neg hb]
  rw [hn, hc, updText_eta]

theorem cleanStage4_fix {s : RawSchema} {rows : List RawRow}
    (h : ∀ r ∈ rows, s.has_venta_timestamp = true → ∃ t, r.venta_timestamp = TCell.valid t) :
    cleanStage4 s rows = rows := by
  unfold cleanStage4
  by_cases hts : s.has_venta_timestamp = true
  · have hmap : rows.map
        (fun r => { r with venta_timestamp := toDatetimeCell r.venta_timestamp }) = rows := by
      apply mapSelf
      intro r hr
      obtain ⟨t, ht⟩ := h r hr hts
      have hc : toDatetimeCell r.venta_timestamp = r.venta_timestamp := by rw [ht]; rfl
      rw [hc, updTs_eta]
    rw [if_pos hts, hmap, List.filter_eq_self]
    intro r hr
    obtain ⟨t, ht⟩ := h r hr hts
    simp [tsNotNull, ht]
  · rw [if_neg hts]

theorem limpiar_rows_clean (d : RawDataset) :
    ∀ r ∈ (limpiar_datos d).rows, RowClean d.schema r := by
  intro r hr
  simp only [limpiar_datos] at hr
  have hstep4 : ∃ r3 ∈ cleanStage3 d.schema (cleanStage2 d.schema (cleanStage1 d.schema d.rows)),
      r.nombre = r3.nombre ∧ r.categoria = r3.categoria ∧
      r.venta_total = r3.venta_total ∧
      (d.schema.has_venta_timestamp = true → ∃ t, r.venta_timestamp = TCell.valid t) ∧
      (d.schema.has_venta_timestamp = false → r = r3) := by
    by_cases hts : d.schema.has_venta_timestamp = true
    · unfold cleanStage4 at hr
      rw [if_pos hts] at hr
      rcases List.mem_filter.mp hr with ⟨hmem, hcond⟩
      rcases List.mem_map.mp hmem with ⟨r3, hr3, heq⟩
      subst heq
      refine ⟨r3, hr3, rfl, rfl, rfl, ?_, ?_⟩
      · intro _
        cases hcell : r3.venta_timestamp with
        | null => rw [hcell] at hcond; simp [toDatetimeCell, tsNotNull] at hcond
        | valid t => exact ⟨t, rfl⟩
        | coercible t => exact ⟨t, rfl⟩
        | invalid => rw [hcell] at hcond; simp [toDatetimeCell, tsNotNull] at hcond
      · intro hcon
        simp [hts] at hcon
    · unfold cleanStage4 at hr
      rw [if_neg hts] at hr
      exact ⟨r, hr, rfl, rfl, rfl, fun hcon => absurd hcon hts, fun _ => rfl⟩
  obtain ⟨r3, hr3, hn3, hc3, hv3, hts4, hid4⟩ := hstep4
  rcases List.mem_map.mp hr3 with ⟨r2, hr2, heq3⟩
  subst heq3
  have hstep2 : ∃ r1 ∈ cleanStage1 d.schema d.rows,
      (d.schema.has_venta_total = true → ∃ q, r2.venta_total = Cell.num q ∧ 0 ≤ q) ∧
      (d.schema.has_venta_total = false → r2 = r1) := by
    by_cases hvt : d.schema.has_venta_total = true
    · unfold cleanStage2 at hr2
      rw [if_pos hvt] at hr2
      rcases List.mem_filter.mp hr2 with ⟨hmem, hcond⟩
      rcases List.mem_map.mp hmem with ⟨r1, hr1, heq2⟩
      subst heq2
      refine ⟨r1, hr1, fun _ => ?_, ?_⟩
      · cases hcell : r1.venta_total with
        | null => exact ⟨0, rfl, le_refl 0⟩
        | num q =>
          refine ⟨q, rfl, ?_⟩
          rw [hcell] at hcond
          simpa [cleanVentaCell, toNumericCell, fillna0, ventaNonneg] using hcond
        | numText q str =>
          refine ⟨q, rfl, ?_⟩
          rw [hcell] at hcond
          simpa [cleanVentaCell, toNumericCell, fillna0, ventaNonneg] using hcond
        | text str => exact ⟨0, rfl, le_refl 0⟩
      · intro hcon
        simp [hvt] at hcon
    · unfold cleanStage2 at hr2
      rw [if_neg hvt] at hr2
      exact ⟨r2, hr2, fun hcon => absurd hcon hvt, fun _ => rfl⟩
  obtain ⟨r1, hr1, hv2, hid2⟩ := hstep2
  have hP01 : rowAllNull d.schema r1 = false := by
    unfold cleanStage1 at hr1
    rcases List.mem_filter.mp hr1 with ⟨_, hcond⟩
    simpa using hcond
  have hnomField : r.nombre =
      (if d.schema.has_nombre then cleanTextCell r2.nombre else r2.nombre) := hn3
  have hcatField : r.categoria =
      (if d.schema.has_categoria then cleanTextCell r2.categoria else r2.categoria) := hc3
  have hvenField : r.venta_total = r2.venta_total := hv3
  refine ⟨?_, ?_, ?_, hts4, ?_⟩
  · intro hvt
    obtain ⟨q, hq, hq0⟩ := hv2 hvt
    exact ⟨q, by rw [hvenField, hq], hq0⟩
  · intro hn
    rw [hnomField, if_pos hn]
    exact cleanTextCell_clean r2.nombre
  · intro hc
    rw [hcatField, if_pos hc]
    exact cleanTextCell_clean r2.categoria
  · by_cases hvt : d.schema.has_venta_total = true
    · obtain ⟨q, hq, _⟩ := hv2 hvt
      have hrq : r.venta_total = Cell.num q := by rw [hvenField, hq]
      simp [rowAllNull, hvt, hrq, isNullC]
    · by_cases hn : d.schema.has_nombre = true
      · have hcl : isCleanTextCell r.nombre := by
          rw [hnomField, if_pos hn]
          exact cleanTextCell_clean r2.nombre
        obtain ⟨u, hu, _, _⟩ := hcl
        simp [rowAllNull, hn, hu, isNullC]
      · by_cases hc : d.schema.has_categoria = true
        · have hcl : isCleanTextCell r.categoria := by
            rw [hcatField, if_pos hc]
            exact cleanTextCell_clean r2.categoria
          obtain ⟨u, hu, _, _⟩ := hcl
          simp [rowAllNull, hc, hu, isNullC]
        · by_cases hts : d.schema.has_venta_timestamp = true
          · obtain ⟨t, ht⟩ := hts4 hts
            simp [rowAllNull, hts, ht, isNullT]
          · have hts' : d.schema.has_venta_timestamp = false := by simpa using hts
            have hvt' : d.schema.has_venta_total = false := by simpa using hvt
            have hr3r := hid4 hts'
            have hupd : ({ r2 with
                nombre := if d.schema.has_nombre then cleanTextCell r2.nombre else r2.nombre,
                categoria := if d.schema.has_categoria then cleanTextCell r2.categoria
                  else r2.categoria }) = r2 := by
              rw [if_neg hn, if_neg hc, updText_eta]
            rw [hr3r, hupd, hid2 hvt']
            exact hP01

/-- C7: cleaning is idempotent — applying `limpiar_datos` twice yields the
same dataset as applying it once.  Every row the cleaner outputs already has
a numeric non-negative amount, stripped non-sentinel text cells and a valid
timestamp wherever those columns exist, so each of the four cleaning steps
fixes the cleaned dataset. -/
theorem limpiar_datos_idempotent (d : RawDataset) :
    limpiar_datos (limpiar_datos d) = limpiar_datos d := by
  have hinv := limpiar_rows_clean d
  have h1 : cleanStage1 d.schema (limpiar_datos d).rows = (limpiar_datos d).rows :=
    cleanStage1_fix (fun r hr => (hinv r hr).2.2.2.2)
  have h2 : cleanStage2 d.schema (limpiar_datos d).rows = (limpiar_datos d).rows :=
    cleanStage2_fix (fun r hr => (hinv r hr).1)
  have h3 : cleanStage3 d.schema (limpiar_datos d).rows = (limpiar_datos d).rows :=
    cleanStage3_fix (fun r hr => ⟨(hinv r hr).2.1, (hinv r hr).2.2.1⟩)
  have h4 : cleanStage4 d.schema (limpiar_datos d).rows = (limpiar_datos d).rows :=
    cleanStage4_fix (fun r hr => (hinv r hr).2.2.2.1)
  show (⟨d.schema, cleanStage4 d.schema (cleanStage3 d.schema (cleanStage2 d.schema
    (cleanStage1 d.schema (limpiar_datos d).rows)))⟩ : RawDataset) = limpiar_datos d
  rw [h1, h2, h3, h4]
  conv_rhs => rw [limpiar_datos]
  rfl

end SistemaVentas
